import Mathlib

/-!
Verification of the image validation and processing façade of the
Remove-Background repository (rembg-api).

The Python sources embedded here:
  app/services/image_processor.py  (class ImageProcessingService)
  app/routers/background.py        (handler remove_background_base64)
  app/models/schemas.py            (ImageProcessRequest.validate_base64)

Modelling conventions:
  * A PIL image is modelled by its width, height and optional declared
    format tag, the only attributes the façade reads.
  * The external libraries (PIL byte decoding/encoding, the rembg model)
    are injected as function parameters, following the design note of the
    repository that treats them as opaque capabilities.
  * Python's base64.b64decode / b64encode (legacy, non-strict mode) are
    embedded faithfully: characters outside the base64 alphabet are
    discarded before the padding check, non-ASCII input fails outright.
  * Machine floats for elapsed time are modelled as rationals; Python's
    round(x, 3) is modelled by round-half-even at rational precision.
  * Exception text produced by external libraries is modelled by fixed
    tag strings; text produced by the repository itself is reproduced
    verbatim (apostrophes written as the escape \x27).
-/

namespace RembgApi

/-- An in-memory decoded raster image as the façade sees it: width, height
and the optional declared format tag (PIL `Image.format`, which may be
`None` after certain transformations). -/
structure PImage where
  width : Nat
  height : Nat
  format : Option String
deriving DecidableEq

/-- PIL `image.size`: the pair (width, height). -/
def PImage.size (i : PImage) : Nat × Nat := (i.width, i.height)

/-- Models Python `str(x)` applied to the optional string argument of an
exception: `str(None)` is the text None. -/
def pyOptStr : Option String → String
  | some m => m
  | none => "None"

/-- `ImageProcessingService.SUPPORTED_FORMATS`, the supported format tags. -/
def SUPPORTED_FORMATS : List String := ["PNG", "JPEG", "JPG", "WEBP", "BMP"]

/-- `ImageProcessingService.MAX_IMAGE_SIZE = 4096 * 4096` pixels. -/
def MAX_IMAGE_SIZE : Nat := 4096 * 4096

/-- The text of Python's repr of the SUPPORTED_FORMATS set as interpolated
into the format error message. (The real repr order depends on hash
randomisation of the Python run; no claim inspects this text.) -/
def supportedFormatsRepr : String :=
  "\x7b\x27PNG\x27, \x27JPEG\x27, \x27JPG\x27, \x27WEBP\x27, \x27BMP\x27\x7d"

/-- The condition of the first check of `validate_image`:
`image.format is not None and image.format not in SUPPORTED_FORMATS`. -/
def hasUnsupportedFormat : Option String → Bool
  | none => false
  | some f => !(SUPPORTED_FORMATS.contains f)

/-- `ImageProcessingService.validate_image`: returns the pair
(is_valid, error_message). The three checks run in source order: format,
then maximum area, then minimum dimensions. -/
def validate_image (image : PImage) : Bool × Option String :=
  if hasUnsupportedFormat image.format then
    (false, some ("Format " ++ pyOptStr image.format ++
      " non supporté. Formats acceptés : " ++ supportedFormatsRepr))
  else if MAX_IMAGE_SIZE < image.width * image.height then
    (false, some ("Image trop grande (" ++ toString image.width ++ "x" ++
      toString image.height ++ "). Maximum : " ++ toString MAX_IMAGE_SIZE ++ " pixels"))
  else if image.width < 10 ∨ image.height < 10 then
    (false, some "Image trop petite (minimum 10x10 pixels)")
  else
    (true, none)

/-- Decidable substring test on character lists (needle occurs
contiguously in the haystack), used to talk about what a message cites. -/
def startsWithChars : List Char → List Char → Bool
  | _, [] => true
  | [], _ :: _ => false
  | h :: hs, n :: ns => h = n && startsWithChars hs ns

/-- Substring occurrence test: `hasSub hay needle` holds when `needle`
occurs contiguously inside `hay`. -/
def hasSub (hay needle : List Char) : Bool :=
  match hay with
  | [] => needle.isEmpty
  | _ :: t => startsWithChars hay needle || hasSub t needle

theorem supported_formats_cases (fmt : Option String)
    (hfmt : fmt = none ∨ fmt ∈ [some "PNG", some "JPEG", some "JPG", some "WEBP", some "BMP"]) :
    hasUnsupportedFormat fmt = false := by
  rcases hfmt with h | h
  · subst h; rfl
  · simp only [List.mem_cons, List.mem_singleton] at h
    rcases h with h | h | h | h | h | h <;> first | (subst h; rfl) | exact absurd h (by simp)

/-- C1: a decoded image whose format tag is absent or belongs to
{PNG, JPEG, JPG, WEBP, BMP}, whose area is at most 16,777,216 pixels and
whose width and height are each at least 10 passes `validate_image` with
no error message. -/
theorem c1_validate_passes (w h : Nat) (fmt : Option String)
    (hfmt : fmt = none ∨ fmt ∈ [some "PNG", some "JPEG", some "JPG", some "WEBP", some "BMP"])
    (harea : w * h ≤ 16777216) (hw : 10 ≤ w) (hh : 10 ≤ h) :
    validate_image ⟨w, h, fmt⟩ = (true, none) := by
  unfold validate_image
  rw [show hasUnsupportedFormat (PImage.mk w h fmt).format = false from
    supported_formats_cases fmt hfmt]
  simp only [Bool.false_eq_true, if_false]
  rw [if_neg (by simp only [MAX_IMAGE_SIZE]; omega), if_neg (by omega)]

/-- Witness for C1 at a concrete 100 by 100 PNG image. -/
theorem c1_validate_passes_witness :
    validate_image ⟨100, 100, some "PNG"⟩ = (true, none) :=
  c1_validate_passes 100 100 (some "PNG") (by simp) (by omega) (by omega) (by omega)

/-- C10: for every decoded image, `validate_image` is total (it is a Lean
function) and well-formed: it reports valid exactly when the error
message is absent. -/
theorem c10_valid_iff_no_message (img : PImage) :
    (validate_image img).fst = true ↔ (validate_image img).snd = none := by
  unfold validate_image
  split_ifs <;> simp

/-- C5 counterexample: a 9 by 2,000,000 image with an absent format tag has
one dimension below 10, yet `validate_image` reports the too-large reason,
not the too-small one, because the area check runs first. -/
theorem c5_counterexample :
    validate_image ⟨9, 2000000, none⟩
      = (false, some "Image trop grande (9x2000000). Maximum : 16777216 pixels") ∧
    some "Image trop grande (9x2000000). Maximum : 16777216 pixels"
      ≠ some "Image trop petite (minimum 10x10 pixels)" := by
  exact ⟨by decide, by decide⟩

/-- C5 amended: for an image with a supported or absent format tag whose
area does not exceed 16,777,216, width 9 or height 9 makes
`validate_image` fail with the too-small reason regardless of the other
dimension. -/
theorem c5_too_small (w h : Nat) (fmt : Option String)
    (hfmt : fmt = none ∨ fmt ∈ [some "PNG", some "JPEG", some "JPG", some "WEBP", some "BMP"])
    (hdim : w = 9 ∨ h = 9) (harea : w * h ≤ 16777216) :
    validate_image ⟨w, h, fmt⟩
      = (false, some "Image trop petite (minimum 10x10 pixels)") := by
  unfold validate_image
  rw [show hasUnsupportedFormat (PImage.mk w h fmt).format = false from
    supported_formats_cases fmt hfmt]
  simp only [Bool.false_eq_true, if_false]
  rw [if_neg (by simp only [MAX_IMAGE_SIZE]; omega), if_pos (by omega)]

/-- Witness for the amended C5 at a concrete 9 by 100 image. -/
theorem c5_too_small_witness :
    validate_image ⟨9, 100, none⟩
      = (false, some "Image trop petite (minimum 10x10 pixels)") :=
  c5_too_small 9 100 none (Or.inl rfl) (Or.inl rfl) (by omega)

/-- C8 counterexample: for a 4097 by 4097 PNG image (pixel count
4097 * 4097 = 16785409) the too-large message cites the dimensions and the
limit, but the actual pixel count 16785409 appears nowhere in it. -/
theorem c8_counterexample :
    validate_image ⟨4097, 4097, some "PNG"⟩
      = (false, some "Image trop grande (4097x4097). Maximum : 16777216 pixels") ∧
    4097 * 4097 = 16785409 ∧
    hasSub ("Image trop grande (4097x4097). Maximum : 16777216 pixels".data)
      ("16785409".data) = false ∧
    hasSub ("Image trop grande (4097x4097). Maximum : 16777216 pixels".data)
      ("16777216".data) = true := by
  exact ⟨by decide, by decide, by decide, by decide⟩

/-- C8 amended: for every image with a supported or absent format tag whose
area exceeds 16,777,216 pixels, `validate_image` fails with a too-large
message citing the actual dimensions (width x height) and the 16,777,216
limit. -/
theorem c8_too_large (w h : Nat) (fmt : Option String)
    (hfmt : fmt = none ∨ fmt ∈ [some "PNG", some "JPEG", some "JPG", some "WEBP", some "BMP"])
    (harea : 16777216 < w * h) :
    validate_image ⟨w, h, fmt⟩
      = (false, some ("Image trop grande (" ++ toString w ++ "x" ++ toString h ++
          "). Maximum : 16777216 pixels")) := by
  unfold validate_image
  rw [show hasUnsupportedFormat (PImage.mk w h fmt).format = false from
    supported_formats_cases fmt hfmt]
  simp only [Bool.false_eq_true, if_false]
  rw [if_pos (by simp only [MAX_IMAGE_SIZE]; omega)]
  simp only [String.append_assoc]
  exact congrArg (fun s => ((false : Bool), some ("Image trop grande (" ++ (toString w ++
    ("x" ++ (toString h ++ s)))))) rfl

/-- Witness for the amended C8 at the concrete 4097 by 4097 image. -/
theorem c8_too_large_witness :
    validate_image ⟨4097, 4097, some "PNG"⟩
      = (false, some ("Image trop grande (" ++ toString 4097 ++ "x" ++ toString 4097 ++
          "). Maximum : 16777216 pixels")) :=
  c8_too_large 4097 4097 (some "PNG") (by simp) (by omega)

/-- Value of a character in the standard base64 alphabet, none for every
character outside it (the padding character '=' included). -/
def b64Val (c : Char) : Option Nat :=
  if 65 ≤ c.toNat ∧ c.toNat ≤ 90 then some (c.toNat - 65)
  else if 97 ≤ c.toNat ∧ c.toNat ≤ 122 then some (c.toNat - 97 + 26)
  else if 48 ≤ c.toNat ∧ c.toNat ≤ 57 then some (c.toNat - 48 + 52)
  else if c = '+' then some 62
  else if c = '/' then some 63
  else none

/-- Character of the standard base64 alphabet at index n (0 ≤ n < 64). -/
def b64Char (n : Nat) : Char :=
  if n < 26 then Char.ofNat (65 + n)
  else if n < 52 then Char.ofNat (97 + (n - 26))
  else if n < 62 then Char.ofNat (48 + (n - 52))
  else if n = 62 then '+'
  else '/'

/-- Models Python `base64.b64encode` on a byte list (each entry < 256):
groups of three bytes become four alphabet characters, a trailing group of
one or two bytes is padded with '='. -/
def b64encodeChars : List Nat → List Char
  | [] => []
  | [a] => [b64Char (a / 4), b64Char (a % 4 * 16), '=', '=']
  | [a, b] => [b64Char (a / 4), b64Char (a % 4 * 16 + b / 16), b64Char (b % 16 * 4), '=']
  | a :: b :: c :: rest =>
      b64Char (a / 4) :: b64Char (a % 4 * 16 + b / 16) ::
      b64Char (b % 16 * 4 + c / 64) :: b64Char (c % 64) :: b64encodeChars rest

/-- Python `base64.b64encode(...).decode('utf-8')`: the base64 text. -/
def b64encode (bs : List Nat) : String := String.mk (b64encodeChars bs)

/-- Models CPython's legacy (non-strict) `binascii.a2b_base64` loop.
State: position inside the current quadruple (0..3), the bits carried
over, and the count of padding characters seen in the current quadruple.
Characters outside the alphabet that are not '=' are discarded; '=' closes
a quadruple once at least two data characters and enough padding have been
seen; a quadruple left open at the end of input is an error (Python's
Invalid padding / Incorrect padding exceptions, collapsed to none). -/
def a2bAux : Nat → Nat → Nat → List Char → Option (List Nat)
  | quadPos, _, _, [] => if quadPos = 0 then some [] else none
  | quadPos, leftchar, pads, c :: cs =>
    if c = '=' then
      if 2 ≤ quadPos ∧ 4 ≤ quadPos + pads + 1 then a2bAux 0 0 0 cs
      else a2bAux quadPos leftchar (pads + 1) cs
    else
      match b64Val c with
      | none => a2bAux quadPos leftchar pads cs
      | some v =>
        match quadPos with
        | 0 => a2bAux 1 v pads cs
        | 1 => Option.map (fun r => (leftchar * 64 + v) / 16 :: r)
                 (a2bAux 2 ((leftchar * 64 + v) % 16) pads cs)
        | 2 => Option.map (fun r => (leftchar * 64 + v) / 4 :: r)
                 (a2bAux 3 ((leftchar * 64 + v) % 4) pads cs)
        | _ => Option.map (fun r => (leftchar * 64 + v) :: r)
                 (a2bAux 0 0 pads cs)

/-- Models Python `base64.b64decode` on a str argument: the string is first
ASCII-encoded (a character with code point 128 or above raises), then fed
to the legacy base64 loop. -/
def b64decode (s : String) : Option (List Nat) :=
  if s.data.all (fun c => c.toNat < 128) then a2bAux 0 0 0 s.data else none

theorem b64Val_b64Char : ∀ n < 64, b64Val (b64Char n) = some n := by decide

theorem b64Char_ascii : ∀ n < 64, (b64Char n).toNat < 128 := by decide

theorem b64Char_ne_pad : ∀ n < 64, b64Char n ≠ '=' := by decide

theorem a2bAux_step0 (lc pads : Nat) (c : Char) (cs : List Char) (v : Nat)
    (hne : c ≠ '=') (hv : b64Val c = some v) :
    a2bAux 0 lc pads (c :: cs) = a2bAux 1 v pads cs := by
  simp only [a2bAux, if_neg hne, hv]

theorem a2bAux_step1 (lc pads : Nat) (c : Char) (cs : List Char) (v : Nat)
    (hne : c ≠ '=') (hv : b64Val c = some v) :
    a2bAux 1 lc pads (c :: cs)
      = Option.map (fun r => (lc * 64 + v) / 16 :: r) (a2bAux 2 ((lc * 64 + v) % 16) pads cs) := by
  simp only [a2bAux, if_neg hne, hv]

theorem a2bAux_step2 (lc pads : Nat) (c : Char) (cs : List Char) (v : Nat)
    (hne : c ≠ '=') (hv : b64Val c = some v) :
    a2bAux 2 lc pads (c :: cs)
      = Option.map (fun r => (lc * 64 + v) / 4 :: r) (a2bAux 3 ((lc * 64 + v) % 4) pads cs) := by
  simp only [a2bAux, if_neg hne, hv]

theorem a2bAux_step3 (lc pads : Nat) (c : Char) (cs : List Char) (v : Nat)
    (hne : c ≠ '=') (hv : b64Val c = some v) :
    a2bAux 3 lc pads (c :: cs)
      = Option.map (fun r => (lc * 64 + v) :: r) (a2bAux 0 0 pads cs) := by
  simp only [a2bAux, if_neg hne, hv]

theorem a2bAux_pad_wait (qp lc pads : Nat) (cs : List Char)
    (h : ¬(2 ≤ qp ∧ 4 ≤ qp + pads + 1)) :
    a2bAux qp lc pads ('=' :: cs) = a2bAux qp lc (pads + 1) cs := by
  simp only [a2bAux, if_pos rfl, if_true, if_neg h]

theorem a2bAux_pad_finish (qp lc pads : Nat) (cs : List Char)
    (h : 2 ≤ qp ∧ 4 ≤ qp + pads + 1) :
    a2bAux qp lc pads ('=' :: cs) = a2bAux 0 0 0 cs := by
  simp only [a2bAux, if_pos rfl, if_true, if_pos h]

theorem a2bAux_skip (qp lc pads : Nat) (c : Char) (cs : List Char)
    (hne : c ≠ '=') (hv : b64Val c = none) :
    a2bAux qp lc pads (c :: cs) = a2bAux qp lc pads cs := by
  cases qp with
  | zero => simp only [a2bAux, if_neg hne, hv]
  | succ n => simp only [a2bAux, if_neg hne, hv]

/-- Decoding the legacy way inverts encoding: feeding the characters
produced by `b64encodeChars` to the decode loop recovers the bytes. -/
theorem a2bAux_b64encodeChars :
    ∀ bs : List Nat, (∀ b ∈ bs, b < 256) → a2bAux 0 0 0 (b64encodeChars bs) = some bs
  | [], _ => rfl
  | [a], h => by
    have ha : a < 256 := h a (by simp)
    have h1 : a / 4 < 64 := by omega
    have h2 : a % 4 * 16 < 64 := by omega
    rw [show b64encodeChars [a] = [b64Char (a / 4), b64Char (a % 4 * 16), '=', '='] from rfl,
      a2bAux_step0 _ _ _ _ _ (b64Char_ne_pad _ h1) (b64Val_b64Char _ h1),
      a2bAux_step1 _ _ _ _ _ (b64Char_ne_pad _ h2) (b64Val_b64Char _ h2),
      a2bAux_pad_wait _ _ _ _ (by omega),
      a2bAux_pad_finish _ _ _ _ (by omega)]
    show some [(a / 4 * 64 + a % 4 * 16) / 16] = some [a]
    congr 2
    omega
  | [a, b], h => by
    have ha : a < 256 := h a (by simp)
    have hb : b < 256 := h b (by simp)
    have h1 : a / 4 < 64 := by omega
    have h2 : a % 4 * 16 + b / 16 < 64 := by omega
    have h3 : b % 16 * 4 < 64 := by omega
    rw [show b64encodeChars [a, b]
        = [b64Char (a / 4), b64Char (a % 4 * 16 + b / 16), b64Char (b % 16 * 4), '='] from rfl,
      a2bAux_step0 _ _ _ _ _ (b64Char_ne_pad _ h1) (b64Val_b64Char _ h1),
      a2bAux_step1 _ _ _ _ _ (b64Char_ne_pad _ h2) (b64Val_b64Char _ h2),
      a2bAux_step2 _ _ _ _ _ (b64Char_ne_pad _ h3) (b64Val_b64Char _ h3),
      a2bAux_pad_finish _ _ _ _ (by omega)]
    show some [(a / 4 * 64 + (a % 4 * 16 + b / 16)) / 16,
      ((a / 4 * 64 + (a % 4 * 16 + b / 16)) % 16 * 64 + b % 16 * 4) / 4] = some [a, b]
    congr 3
    · omega
    · omega
  | a :: b :: c :: rest, h => by
    have ha : a < 256 := h a (by simp)
    have hb : b < 256 := h b (by simp)
    have hc : c < 256 := h c (by simp)
    have hrest : ∀ x ∈ rest, x < 256 := fun x hx => h x (by simp [hx])
    have h1 : a / 4 < 64 := by omega
    have h2 : a % 4 * 16 + b / 16 < 64 := by omega
    have h3 : b % 16 * 4 + c / 64 < 64 := by omega
    have h4 : c % 64 < 64 := by omega
    rw [show b64encodeChars (a :: b :: c :: rest)
        = b64Char (a / 4) :: b64Char (a % 4 * 16 + b / 16) ::
          b64Char (b % 16 * 4 + c / 64) :: b64Char (c % 64) :: b64encodeChars rest from rfl,
      a2bAux_step0 _ _ _ _ _ (b64Char_ne_pad _ h1) (b64Val_b64Char _ h1),
      a2bAux_step1 _ _ _ _ _ (b64Char_ne_pad _ h2) (b64Val_b64Char _ h2),
      a2bAux_step2 _ _ _ _ _ (b64Char_ne_pad _ h3) (b64Val_b64Char _ h3),
      a2bAux_step3 _ _ _ _ _ (b64Char_ne_pad _ h4) (b64Val_b64Char _ h4),
      a2bAux_b64encodeChars rest hrest]
    show some ((a / 4 * 64 + (a % 4 * 16 + b / 16)) / 16 ::
      ((a / 4 * 64 + (a % 4 * 16 + b / 16)) % 16 * 64 + (b % 16 * 4 + c / 64)) / 4 ::
      (((a / 4 * 64 + (a % 4 * 16 + b / 16)) % 16 * 64 + (b % 16 * 4 + c / 64)) % 4 * 64 + c % 64)
      :: rest) = some (a :: b :: c :: rest)
    congr 3
    · omega
    · omega
    · congr 1
      omega

/-- Every character emitted by the encoder is ASCII. -/
theorem b64encodeChars_ascii :
    ∀ bs : List Nat, (∀ b ∈ bs, b < 256) → ∀ c ∈ b64encodeChars bs, c.toNat < 128
  | [], _ => by simp [b64encodeChars]
  | [a], h => by
    have ha : a < 256 := h a (by simp)
    simp only [b64encodeChars, List.mem_cons, List.not_mem_nil, or_false]
    rintro c (rfl | rfl | rfl | rfl)
    · exact b64Char_ascii _ (by omega)
    · exact b64Char_ascii _ (by omega)
    · decide
    · decide
  | [a, b], h => by
    have ha : a < 256 := h a (by simp)
    have hb : b < 256 := h b (by simp)
    simp only [b64encodeChars, List.mem_cons, List.not_mem_nil, or_false]
    rintro c (rfl | rfl | rfl | rfl)
    · exact b64Char_ascii _ (by omega)
    · exact b64Char_ascii _ (by omega)
    · exact b64Char_ascii _ (by omega)
    · decide
  | a :: b :: c :: rest, h => by
    have ha : a < 256 := h a (by simp)
    have hb : b < 256 := h b (by simp)
    have hc : c < 256 := h c (by simp)
    have hrest : ∀ x ∈ rest, x < 256 := fun x hx => h x (by simp [hx])
    simp only [b64encodeChars, List.mem_cons]
    rintro x (rfl | rfl | rfl | rfl | hx)
    · exact b64Char_ascii _ (by omega)
    · exact b64Char_ascii _ (by omega)
    · exact b64Char_ascii _ (by omega)
    · exact b64Char_ascii _ (by omega)
    · exact b64encodeChars_ascii rest hrest x hx

/-- Round trip at the byte level: `b64decode` inverts `b64encode`. -/
theorem b64decode_b64encode (bs : List Nat) (h : ∀ b ∈ bs, b < 256) :
    b64decode (b64encode bs) = some bs := by
  unfold b64decode b64encode
  rw [if_pos]
  · exact a2bAux_b64encodeChars bs h
  · rw [List.all_eq_true]
    intro c hc
    exact decide_eq_true (b64encodeChars_ascii bs h c hc)

/-- A character survives the legacy decode loop's scan exactly when it is
in the base64 alphabet or is the padding character. -/
def b64Keep (c : Char) : Bool := (b64Val c).isSome || c = '='

/-- Discarding characters outside the alphabet-or-padding set before the
legacy decode loop changes nothing: the loop itself skips them. -/
theorem a2bAux_filter (l : List Char) : ∀ qp lc pads : Nat, qp ≤ 3 →
    a2bAux qp lc pads (l.filter b64Keep) = a2bAux qp lc pads l := by
  induction l with
  | nil => intro qp lc pads _; rfl
  | cons c cs ih =>
    intro qp lc pads hqp
    by_cases hpad : c = '='
    · subst hpad
      rw [show List.filter b64Keep ('=' :: cs) = '=' :: List.filter b64Keep cs from by
        simp [List.filter_cons, b64Keep]]
      by_cases hq : 2 ≤ qp ∧ 4 ≤ qp + pads + 1
      · rw [a2bAux_pad_finish _ _ _ _ hq, a2bAux_pad_finish _ _ _ _ hq, ih 0 0 0 (by omega)]
      · rw [a2bAux_pad_wait _ _ _ _ hq, a2bAux_pad_wait _ _ _ _ hq, ih qp lc (pads + 1) hqp]
    · cases hv : b64Val c with
      | none =>
        rw [show List.filter b64Keep (c :: cs) = List.filter b64Keep cs from by
          simp [List.filter_cons, b64Keep, hv, hpad]]
        rw [a2bAux_skip _ _ _ _ _ hpad hv, ih qp lc pads hqp]
      | some v =>
        rw [show List.filter b64Keep (c :: cs) = c :: List.filter b64Keep cs from by
          simp [List.filter_cons, b64Keep, hv]]
        match qp, hqp with
        | 0, _ =>
          rw [a2bAux_step0 _ _ _ _ _ hpad hv, a2bAux_step0 _ _ _ _ _ hpad hv,
            ih 1 v pads (by omega)]
        | 1, _ =>
          rw [a2bAux_step1 _ _ _ _ _ hpad hv, a2bAux_step1 _ _ _ _ _ hpad hv,
            ih 2 _ pads (by omega)]
        | 2, _ =>
          rw [a2bAux_step2 _ _ _ _ _ hpad hv, a2bAux_step2 _ _ _ _ _ hpad hv,
            ih 3 _ pads (by omega)]
        | 3, _ =>
          rw [a2bAux_step3 _ _ _ _ _ hpad hv, a2bAux_step3 _ _ _ _ _ hpad hv,
            ih 0 0 pads (by omega)]

/-- The calls the façade can make to the injected rembg `remove` function:
either the bare default call `remove(img)` or the alpha-matting call with
its three tuning parameters. -/
inductive ModelCall
  | default (img : PImage)
  | alphaMatting (img : PImage) (fg bg erode : Nat)
deriving DecidableEq

/-- The two exception kinds `remove_background` can raise: the ValueError
for a validation failure, and the wrapping Exception for a model failure. -/
inductive RBError
  | invalidImage (msg : String)
  | processingFailure (msg : String)
deriving DecidableEq

/-- `ImageProcessingService.remove_background`. The rembg model is the
injected `removeFn`; wall-clock elapsed time of the model call is the
injected rational `elapsed` (the code measures it with time.time()).
The returned list records every call made to the model, in order.
Validation runs first; on failure ValueError(error_msg) is raised and the
model is not called. A model exception e is re-raised as
Exception(prefix + str(e)). -/
def remove_background (removeFn : ModelCall → Except String PImage) (elapsed : ℚ)
    (input_image : PImage) (post_process : Bool) :
    Except RBError (PImage × ℚ) × List ModelCall :=
  match validate_image input_image with
  | (true, _) =>
    let call := if post_process
      then ModelCall.alphaMatting input_image 240 10 10
      else ModelCall.default input_image
    match removeFn call with
    | Except.ok output_image => (Except.ok (output_image, elapsed), [call])
    | Except.error e =>
        (Except.error (RBError.processingFailure ("Échec du traitement d\x27image : " ++ e)),
          [call])
  | (false, error_msg) => (Except.error (RBError.invalidImage (pyOptStr error_msg)), [])

/-- `ImageProcessingService.image_to_base64` with format PNG: the injected
`save` models PIL `image.save(buffer, format=PNG)` followed by
`buffer.getvalue()`; the bytes are then base64-encoded. -/
def image_to_base64 (save : PImage → List Nat) (image : PImage) : String :=
  b64encode (save image)

/-- `ImageProcessingService.image_to_bytes` with format PNG: the raw bytes
of the PNG encoding of the image. -/
def image_to_bytes (save : PImage → List Nat) (image : PImage) : List Nat :=
  save image

/-- The two causes a `base64_to_image` failure can have. -/
inductive DecodeErr
  | badBase64
  | badImage
deriving DecidableEq

/-- Models the str() text of the underlying exception raised by the
external libraries inside `base64_to_image` (binascii for base64 errors,
PIL for unparseable bytes); fixed representative texts. -/
def decodeErrText : DecodeErr → String
  | DecodeErr.badBase64 => "Invalid base64-encoded string"
  | DecodeErr.badImage => "cannot identify image file"

/-- `ImageProcessingService.base64_to_image`: decodes the base64 text to
bytes, then opens the bytes with PIL (the injected `pilOpen`, none for
bytes PIL cannot parse). Any failure is re-raised as a ValueError whose
message wraps the underlying exception text. -/
def base64_to_image (pilOpen : List Nat → Option PImage) (base64_string : String) :
    Except String PImage :=
  match b64decode base64_string with
  | none => Except.error ("Impossible de convertir le base64 en image : " ++
      decodeErrText DecodeErr.badBase64)
  | some image_bytes =>
    match pilOpen image_bytes with
    | none => Except.error ("Impossible de convertir le base64 en image : " ++
        decodeErrText DecodeErr.badImage)
    | some image => Except.ok image

/-- `ImageProcessRequest.validate_base64` (Pydantic validator): attempts
`base64.b64decode(v)`; any exception becomes a ValueError with a fixed
message, otherwise the field value passes through unchanged. -/
def validate_base64 (v : String) : Except String String :=
  match b64decode v with
  | none => Except.error "Le base64 fourni est invalide"
  | some _ => Except.ok v

/-- `OutputFormat` of app/models/schemas.py. -/
inductive OutputFormat
  | base64
  | binary
  | url
deriving DecidableEq

/-- `ImageProcessRequest` of app/models/schemas.py (fields after Pydantic
validation). -/
structure ImageProcessRequest where
  image_base64 : String
  output_format : OutputFormat
  post_process : Bool
deriving DecidableEq

/-- `ImageProcessResponse` of app/models/schemas.py. -/
structure ImageProcessResponse where
  success : Bool
  output_format : OutputFormat
  image_data : Option String
  processing_time : ℚ
  original_size : Nat × Nat
  message : Option String
deriving DecidableEq

/-- What the endpoint delivers to the HTTP boundary: either the JSON
response model, or an HTTPException with status code and detail text. -/
inductive Outcome
  | success (resp : ImageProcessResponse)
  | httpError (status : Nat) (detail : String)
deriving DecidableEq

/-- Round-half-even of a rational to an integer, the tie-breaking rule of
Python's round(). -/
def roundHalfEven (q : ℚ) : ℤ :=
  if q - Rat.floor q < (1 : ℚ) / 2 then Rat.floor q
  else if (1 : ℚ) / 2 < q - Rat.floor q then Rat.floor q + 1
  else if Rat.floor q % 2 = 0 then Rat.floor q else Rat.floor q + 1

/-- Models Python `round(x, 3)` at rational precision (the code applies it
to a float; the float-representation subtleties are outside this model). -/
def round3 (q : ℚ) : ℚ := (roundHalfEven (q * 1000) : ℚ) / 1000

/-- Detail text of the HTTPException(501) raised for the url output tag. -/
def urlNotImplementedDetail : String :=
  "Le format \x27url\x27 n\x27est pas encore implémenté. Utilisez \x27base64\x27 ou \x27binary\x27."

/-- Handler `remove_background_base64` of app/routers/background.py.
Control flow of the try/except block, flattened:
  * a ValueError from decoding or validation is caught by the
    except-ValueError clause and becomes HTTPException(400, str(e));
  * any other exception — the wrapping Exception of a model failure, and
    also the HTTPException(501) the url branch raises inside the try —
    is caught by the except-Exception clause and becomes
    HTTPException(500, prefix + str(e)); for the caught HTTPException,
    str(e) is the starlette text, status code, colon, detail.
The second component again records the calls made to the model. -/
def remove_background_base64 (pilOpen : List Nat → Option PImage)
    (save : PImage → List Nat) (removeFn : ModelCall → Except String PImage)
    (elapsed : ℚ) (request : ImageProcessRequest) : Outcome × List ModelCall :=
  match base64_to_image pilOpen request.image_base64 with
  | Except.error msg => (Outcome.httpError 400 msg, [])
  | Except.ok input_image =>
    match remove_background removeFn elapsed input_image request.post_process with
    | (Except.error (RBError.invalidImage msg), calls) =>
        (Outcome.httpError 400 msg, calls)
    | (Except.error (RBError.processingFailure msg), calls) =>
        (Outcome.httpError 500 ("Erreur lors du traitement de l\x27image : " ++ msg), calls)
    | (Except.ok (output_image, processing_time), calls) =>
      match request.output_format with
      | OutputFormat.url =>
          (Outcome.httpError 500 ("Erreur lors du traitement de l\x27image : 501: " ++
            urlNotImplementedDetail), calls)
      | fmt =>
          (Outcome.success
            { success := true
              output_format := fmt
              image_data := some (image_to_base64 save output_image)
              processing_time := round3 processing_time
              original_size := (input_image.width, input_image.height)
              message := some "Image traitée avec succès" }, calls)

/-- C2: whenever validation fails, `remove_background` raises a ValueError
carrying exactly the validator's message, and the model function is never
called (the recorded call list is empty); in particular a 5 by 5 image
yields the too-small error with no model call. -/
theorem c2_invalid_image (removeFn : ModelCall → Except String PImage) (elapsed : ℚ)
    (img : PImage) (pp : Bool) (msg : String)
    (hval : validate_image img = (false, some msg)) :
    remove_background removeFn elapsed img pp
      = (Except.error (RBError.invalidImage msg), []) ∧
    remove_background removeFn elapsed ⟨5, 5, none⟩ pp
      = (Except.error (RBError.invalidImage "Image trop petite (minimum 10x10 pixels)"), []) := by
  constructor
  · unfold remove_background
    rw [hval]
    rfl
  · rfl

/-- Witness for C2 at the concrete 5 by 5 image. -/
theorem c2_invalid_image_witness :
    remove_background (fun _ => Except.ok ⟨1, 1, none⟩) 0 ⟨5, 5, none⟩ false
      = (Except.error (RBError.invalidImage "Image trop petite (minimum 10x10 pixels)"), []) :=
  (c2_invalid_image (fun _ => Except.ok ⟨1, 1, none⟩) 0 ⟨5, 5, none⟩ false
    "Image trop petite (minimum 10x10 pixels)" rfl).1

/-- C3: for a valid image the model is called exactly once: with the bare
default call when post_process is false, and with alpha matting enabled at
foreground threshold 240, background threshold 10 and erosion size 10 when
post_process is true. -/
theorem c3_model_calls (removeFn : ModelCall → Except String PImage) (elapsed : ℚ)
    (img : PImage) (hval : (validate_image img).fst = true) :
    (remove_background removeFn elapsed img false).snd = [ModelCall.default img] ∧
    (remove_background removeFn elapsed img true).snd
      = [ModelCall.alphaMatting img 240 10 10] := by
  obtain ⟨o, hpair⟩ : ∃ o, validate_image img = (true, o) :=
    ⟨(validate_image img).snd, by rw [← hval, Prod.mk.eta]⟩
  constructor
  · unfold remove_background
    rw [hpair]
    show (match removeFn (ModelCall.default img) with
      | Except.ok output_image => (Except.ok (output_image, elapsed), [ModelCall.default img])
      | Except.error e => (Except.error (RBError.processingFailure
          ("Échec du traitement d\x27image : " ++ e)), [ModelCall.default img])).snd
      = [ModelCall.default img]
    rcases removeFn (ModelCall.default img) with o2 | e <;> rfl
  · unfold remove_background
    rw [hpair]
    show (match removeFn (ModelCall.alphaMatting img 240 10 10) with
      | Except.ok output_image => (Except.ok (output_image, elapsed),
          [ModelCall.alphaMatting img 240 10 10])
      | Except.error e => (Except.error (RBError.processingFailure
          ("Échec du traitement d\x27image : " ++ e)),
          [ModelCall.alphaMatting img 240 10 10])).snd
      = [ModelCall.alphaMatting img 240 10 10]
    rcases removeFn (ModelCall.alphaMatting img 240 10 10) with o2 | e <;> rfl

/-- Witness for C3 at a concrete 100 by 100 PNG image. -/
theorem c3_model_calls_witness :
    (remove_background (fun _ => Except.ok ⟨1, 1, none⟩) 0 ⟨100, 100, some "PNG"⟩ false).snd
      = [ModelCall.default ⟨100, 100, some "PNG"⟩] ∧
    (remove_background (fun _ => Except.ok ⟨1, 1, none⟩) 0 ⟨100, 100, some "PNG"⟩ true).snd
      = [ModelCall.alphaMatting ⟨100, 100, some "PNG"⟩ 240 10 10] :=
  c3_model_calls (fun _ => Except.ok ⟨1, 1, none⟩) 0 ⟨100, 100, some "PNG"⟩ rfl

/-- The bytes of the ASCII text hello, used as a stand-in payload that the
injected PIL decoder recognises. -/
def helloBytes : List Nat := [104, 101, 108, 108, 111]

/-- A concrete injected PIL byte decoder: parses exactly `helloBytes` into
a 100 by 100 PNG-tagged image. -/
def openHello : List Nat → Option PImage :=
  fun bs => if bs = helloBytes then some ⟨100, 100, some "PNG"⟩ else none

/-- A concrete injected PNG encoder returning fixed bytes. -/
def saveStub : PImage → List Nat := fun _ => [0, 1, 2]

/-- A concrete injected rembg model that always succeeds. -/
def okRemove : ModelCall → Except String PImage := fun _ => Except.ok ⟨100, 100, none⟩

/-- A request whose base64 text contains a space, a character outside the
base64 alphabet; the text with the space removed is valid base64 of
`helloBytes`. -/
def spacedRequest : ImageProcessRequest := ⟨"aGVsb G8=", OutputFormat.base64, false⟩

/-- C4 counterexample: the text aGVsb G8= contains a character outside the
base64 alphabet (the space), yet it passes the Pydantic base64 validator,
`base64_to_image` succeeds on it (the decoder discards the space), and the
full handler invokes the model on it — no DecodeFailure is signalled. -/
theorem c4_counterexample :
    (∃ c ∈ spacedRequest.image_base64.data, b64Val c = none ∧ c ≠ '=') ∧
    validate_base64 spacedRequest.image_base64 = Except.ok spacedRequest.image_base64 ∧
    base64_to_image openHello spacedRequest.image_base64
      = Except.ok ⟨100, 100, some "PNG"⟩ ∧
    (remove_background_base64 openHello saveStub okRemove 0 spacedRequest).snd
      = [ModelCall.default ⟨100, 100, some "PNG"⟩] := by
  refine ⟨⟨' ', by decide, by decide, by decide⟩, rfl, rfl, rfl⟩

/-- C4 amended: `base64_to_image` discards ASCII characters outside the
base64 alphabet and padding, behaving on any ASCII text exactly as on the
text with those characters removed; and whenever it does signal the
DecodeFailure ValueError, the handler returns it as the client error and
the model is never invoked. -/
theorem c4_discard_and_no_call (pilOpen : List Nat → Option PImage)
    (save : PImage → List Nat) (removeFn : ModelCall → Except String PImage) (elapsed : ℚ)
    (req : ImageProcessRequest) (hascii : ∀ c ∈ req.image_base64.data, c.toNat < 128) :
    base64_to_image pilOpen req.image_base64
      = base64_to_image pilOpen (String.mk (req.image_base64.data.filter b64Keep)) ∧
    ∀ m, base64_to_image pilOpen req.image_base64 = Except.error m →
      remove_background_base64 pilOpen save removeFn elapsed req
        = (Outcome.httpError 400 m, []) := by
  constructor
  · have hdec : b64decode req.image_base64
        = b64decode (String.mk (req.image_base64.data.filter b64Keep)) := by
      unfold b64decode
      rw [if_pos, if_pos]
      · exact (a2bAux_filter _ 0 0 0 (by omega)).symm
      · rw [List.all_eq_true]
        intro c hc
        exact decide_eq_true (hascii c (List.mem_of_mem_filter hc))
      · rw [List.all_eq_true]
        intro c hc
        exact decide_eq_true (hascii c hc)
    unfold base64_to_image
    rw [hdec]
  · intro m h
    unfold remove_background_base64
    rw [h]

/-- Witness for the amended C4 at the concrete spaced request. -/
theorem c4_discard_and_no_call_witness :
    base64_to_image openHello spacedRequest.image_base64
      = base64_to_image openHello
          (String.mk (spacedRequest.image_base64.data.filter b64Keep)) ∧
    ∀ m, base64_to_image openHello spacedRequest.image_base64 = Except.error m →
      remove_background_base64 openHello saveStub okRemove 0 spacedRequest
        = (Outcome.httpError 400 m, []) :=
  c4_discard_and_no_call openHello saveStub okRemove 0 spacedRequest (by decide)

/-- A concrete 100 by 100 PNG-tagged input image. -/
def pngImage : PImage := ⟨100, 100, some "PNG"⟩

/-- A concrete injected PIL byte decoder parsing exactly the bytes 1,2,3
into `pngImage`. -/
def openPng : List Nat → Option PImage :=
  fun bs => if bs = [1, 2, 3] then some pngImage else none

/-- A request selecting the unimplemented url output tag over valid base64
of a decodable image. -/
def urlRequest : ImageProcessRequest := ⟨b64encode [1, 2, 3], OutputFormat.url, false⟩

/-- C6 (code bug): on an otherwise-valid request selecting the url output
tag, the handler's own HTTPException(501) is raised inside the try block,
so the except-Exception clause catches it and re-raises HTTPException(500)
wrapping its text — the boundary receives a 500 server error, never the
distinct 501 not-implemented signal; the model has even been invoked. -/
theorem c6_url_swallowed_to_500 :
    remove_background_base64 openPng saveStub okRemove 0 urlRequest
      = (Outcome.httpError 500
          ("Erreur lors du traitement de l\x27image : 501: " ++ urlNotImplementedDetail),
        [ModelCall.default pngImage]) ∧
    ∀ d, (remove_background_base64 openPng saveStub okRemove 0 urlRequest).fst
      ≠ Outcome.httpError 501 d := by
  refine ⟨rfl, ?_⟩
  intro d h
  rw [show (remove_background_base64 openPng saveStub okRemove 0 urlRequest).fst
      = Outcome.httpError 500
        ("Erreur lors du traitement de l\x27image : 501: " ++ urlNotImplementedDetail)
    from rfl] at h
  injection h with h1 _
  exact absurd h1 (by decide)

/-- The raw bytes viewed as a Python byte string, for comparing the raw
binary encoding of an image with its base64 text. -/
def rawString (bs : List Nat) : String := String.mk (bs.map Char.ofNat)

/-- A request selecting the binary output tag over valid base64 of a
decodable image. -/
def binaryRequest : ImageProcessRequest := ⟨b64encode [1, 2, 3], OutputFormat.binary, false⟩

/-- The image `okRemove` always returns. -/
def outImage : PImage := ⟨100, 100, none⟩

/-- C7 counterexample: a successful request with the binary output tag
still receives base64 text in image_data (the handler's BINARY branch also
calls image_to_base64), not the raw bytes of the encoded image. -/
theorem c7_counterexample :
    (remove_background_base64 openPng saveStub okRemove 0 binaryRequest).fst
      = Outcome.success
        { success := true
          output_format := OutputFormat.binary
          image_data := some (b64encode (saveStub outImage))
          processing_time := round3 0
          original_size := (100, 100)
          message := some "Image traitée avec succès" } ∧
    b64encode (saveStub outImage) ≠ rawString (saveStub outImage) := by
  refine ⟨rfl, by decide⟩

/-- C7 amended: every successful process-by-encoded-text request receives
image_data as base64 text of the PNG re-encoding — for the base64-text tag
and for the binary tag alike (raw binary is only served by the separate
file endpoint) — together with the original dimensions and the elapsed
seconds rounded to three decimals. -/
theorem c7_success_response (pilOpen : List Nat → Option PImage)
    (save : PImage → List Nat) (removeFn : ModelCall → Except String PImage)
    (elapsed : ℚ) (req : ImageProcessRequest) (input output : PImage)
    (hdec : base64_to_image pilOpen req.image_base64 = Except.ok input)
    (hval : (validate_image input).fst = true)
    (hrem : removeFn (if req.post_process then ModelCall.alphaMatting input 240 10 10
        else ModelCall.default input) = Except.ok output)
    (hfmt : req.output_format ≠ OutputFormat.url) :
    (remove_background_base64 pilOpen save removeFn elapsed req).fst
      = Outcome.success
        { success := true
          output_format := req.output_format
          image_data := some (b64encode (save output))
          processing_time := round3 elapsed
          original_size := (input.width, input.height)
          message := some "Image traitée avec succès" } := by
  obtain ⟨o, hpair⟩ : ∃ o, validate_image input = (true, o) :=
    ⟨(validate_image input).snd, by rw [← hval, Prod.mk.eta]⟩
  have hrb : remove_background removeFn elapsed input req.post_process
      = (Except.ok (output, elapsed),
        [if req.post_process then ModelCall.alphaMatting input 240 10 10
          else ModelCall.default input]) := by
    unfold remove_background
    rw [hpair]
    show (match removeFn (if req.post_process then ModelCall.alphaMatting input 240 10 10
        else ModelCall.default input) with
      | Except.ok output_image => (Except.ok (output_image, elapsed),
          [if req.post_process then ModelCall.alphaMatting input 240 10 10
            else ModelCall.default input])
      | Except.error e => (Except.error (RBError.processingFailure
          ("Échec du traitement d\x27image : " ++ e)),
          [if req.post_process then ModelCall.alphaMatting input 240 10 10
            else ModelCall.default input])) = _
    rw [hrem]
  rcases hfo : req.output_format with _ | _ | _
  · simp [remove_background_base64, hdec, hrb, hfo, image_to_base64]
  · simp [remove_background_base64, hdec, hrb, hfo, image_to_base64]
  · exact absurd hfo hfmt

/-- Witness for the amended C7 at the concrete binary-tag request. -/
theorem c7_success_response_witness :
    (remove_background_base64 openPng saveStub okRemove 0 binaryRequest).fst
      = Outcome.success
        { success := true
          output_format := binaryRequest.output_format
          image_data := some (b64encode (saveStub outImage))
          processing_time := round3 0
          original_size := (pngImage.width, pngImage.height)
          message := some "Image traitée avec succès" } :=
  c7_success_response openPng saveStub okRemove 0 binaryRequest pngImage outImage
    rfl rfl rfl (by decide)

/-- C9: encoding an image to base64 text with `image_to_base64` and
decoding the text back with `base64_to_image` yields an image of the very
dimensions of the original, for every injected PIL encoder/decoder pair
whose own byte-level round trip preserves the dimensions — the repository's
base64 leg of the trip is lossless (`b64decode_b64encode`). -/
theorem c9_roundtrip_dims (save : PImage → List Nat) (pilOpen : List Nat → Option PImage)
    (img img2 : PImage)
    (hbytes : ∀ b ∈ save img, b < 256)
    (hopen : pilOpen (save img) = some img2)
    (hw : img2.width = img.width) (hh : img2.height = img.height) :
    ∃ out, base64_to_image pilOpen (image_to_base64 save img) = Except.ok out ∧
      out.width = img.width ∧ out.height = img.height := by
  refine ⟨img2, ?_, hw, hh⟩
  unfold base64_to_image image_to_base64
  rw [b64decode_b64encode (save img) hbytes]
  show (match pilOpen (save img) with
    | none => Except.error ("Impossible de convertir le base64 en image : " ++
        decodeErrText DecodeErr.badImage)
    | some image => Except.ok image) = Except.ok img2
  rw [hopen]

/-- Witness for C9 at a concrete image and encoder/decoder pair. -/
theorem c9_roundtrip_dims_witness :
    ∃ out, base64_to_image openPng (image_to_base64 (fun _ => [1, 2, 3]) pngImage)
        = Except.ok out ∧ out.width = pngImage.width ∧ out.height = pngImage.height :=
  c9_roundtrip_dims (fun _ => [1, 2, 3]) openPng pngImage pngImage
    (by decide) rfl rfl rfl

end RembgApi
